import Mathlib

/-
Verification of the evolutionary-simulation engine (organism homeostasis,
generation lifecycle, leap-detection statistics) against its specification.

The Python source is embedded shallowly:
  * real numbers become rationals (all constants in the source are decimal
    literals, hence exact rationals);
  * the floating square root used by statistics.pstdev is an explicit
    function parameter `sqrtQ : Q -> Q`;
  * every use of the global pseudo-random source becomes an explicit
    argument (a draw value or a stream of draw values);
  * file I/O becomes a value recording what was (or could not be) written,
    and an exception that escapes a function becomes an Except error.
-/

namespace EvoJumps

/-! ## Organism (src/organism.py) -/

/-- One homeostatic variable: the record stored in
`Organism.homeostatic_variables` (organism.py lines 11-31): a current value,
a target band `[lo, hi]`, a pressure direction (+1 or -1) and a pressure
rate. -/
structure HomeoVar where
  current : ℚ
  lo : ℚ
  hi : ℚ
  pressure_direction : ℚ
  pressure_rate : ℚ
  deriving Repr, DecidableEq

/-- The state of `Organism` (organism.py lines 9-38).  The two homeostatic
variables are kept as a list in their insertion order
(`compute_load` first, then `signal_integrity`). -/
structure Organism where
  vars : List HomeoVar
  genome : List ℚ
  is_alive : Bool
  cumulative_discrepancy : ℚ
  age : ℕ
  deriving Repr, DecidableEq

/-- The initial `homeostatic_variables` mapping of `Organism.__init__`
(organism.py lines 11-31): compute_load starts at 45 with band [30, 95],
direction +1, rate 0.66; signal_integrity starts at 85 with band [70, 100],
direction -1, rate 0.5. -/
def initialVars : List HomeoVar :=
  [ { current := 45, lo := 30, hi := 95, pressure_direction := 1, pressure_rate := 33/50 },
    { current := 85, lo := 70, hi := 100, pressure_direction := -1, pressure_rate := 1/2 } ]

/-- `Organism.__init__(genome_size)` (organism.py lines 9-38) with the
random genome draw made explicit: the freshly created organism is alive, has
age 0 and zero cumulative discrepancy. -/
def mkOrganism (genome : List ℚ) : Organism :=
  { vars := initialVars, genome := genome, is_alive := true,
    cumulative_discrepancy := 0, age := 0 }

/-- The per-variable summand of `Organism.calculate_discrepancy`
(organism.py lines 40-50): squared distance to the target band, 0 inside
the band. -/
def varDiscrepancy (v : HomeoVar) : ℚ :=
  if v.current < v.lo then (v.lo - v.current)^2
  else if v.current > v.hi then (v.current - v.hi)^2
  else 0

/-- `Organism.calculate_discrepancy` (organism.py lines 40-50): total
squared out-of-band error over the homeostatic variables. -/
def calculate_discrepancy (o : Organism) : ℚ :=
  (o.vars.map varDiscrepancy).sum

/-- The loop body of `Organism.process_cycle` applied to one homeostatic
variable (organism.py lines 66-79): delta = direction * rate, multiplied by
1.25 when the current value is strictly outside the band, then added to the
current value. -/
def pressVar (v : HomeoVar) : HomeoVar :=
  let delta := v.pressure_direction * v.pressure_rate
  let delta := if v.current < v.lo ∨ v.current > v.hi then delta * (5/4) else delta
  { v with current := v.current + delta }

/-- `Organism.process_cycle` (organism.py lines 52-85).  The source first
sets `is_alive = False` when `cumulative_discrepancy > 4500`, then returns
if not alive; otherwise it increments age, applies pressure to every
variable, accumulates the discrepancy of the updated state, and dies when
the accumulator exceeds 2500. -/
def process_cycle (o : Organism) : Organism :=
  let o := if o.cumulative_discrepancy > 4500 then { o with is_alive := false } else o
  if o.is_alive = false then o
  else
    let o := { o with age := o.age + 1, vars := o.vars.map pressVar }
    let o := { o with cumulative_discrepancy := o.cumulative_discrepancy + calculate_discrepancy o }
    if o.cumulative_discrepancy > 2500 then { o with is_alive := false } else o

/-- `Organism.gain_resource` (organism.py lines 87-103): position 0 of the
variable list is `compute_load` (reward subtracts and clamps at the band's
lower bound), position 1 is `signal_integrity` (reward adds and clamps at
the band's upper bound); other resource types are ignored. -/
def gain_resource (o : Organism) (resource_type : String) (amount : ℚ) : Organism :=
  if resource_type = "compute_load" then
    { o with vars := o.vars.mapIdx fun i v =>
        if i = 0 then
          let c := v.current - amount
          { v with current := if c < v.lo then v.lo else c }
        else v }
  else if resource_type = "signal_integrity" then
    { o with vars := o.vars.mapIdx fun i v =>
        if i = 1 then
          let c := v.current + amount
          { v with current := if c > v.hi then v.hi else c }
        else v }
  else o

/-- `Organism.trigger_error` (organism.py lines 105-108): a fixed penalty of
50 added to the cumulative discrepancy. -/
def trigger_error (o : Organism) : Organism :=
  { o with cumulative_discrepancy := o.cumulative_discrepancy + 50 }

/-- `Organism.solve_problem` (organism.py lines 110-123): dot product of the
problem data with the leading genome weights; 0 when the genome is shorter
than the data. -/
def solve_problem (o : Organism) (problem_data : List ℚ) : ℚ :=
  if problem_data.length > o.genome.length then 0
  else ((problem_data.zip o.genome).map fun p => p.1 * p.2).sum

/-! ### Claim C4: a restatement of process_cycle in the order the claim uses -/

/-- The behaviour claim C4 ascribes to `processCycle`, written in the
claim's own order: already dead means no change at all; a pre-existing
accumulator above 4500 kills and changes nothing else; otherwise age,
pressure with 1.25 out-of-band amplification, discrepancy accumulation and
the 2500 death check. -/
def processCycleClaimed (o : Organism) : Organism :=
  if o.is_alive = false then o
  else if o.cumulative_discrepancy > 4500 then { o with is_alive := false }
  else
    let o := { o with age := o.age + 1, vars := o.vars.map pressVar }
    let o := { o with cumulative_discrepancy := o.cumulative_discrepancy + calculate_discrepancy o }
    if o.cumulative_discrepancy > 2500 then { o with is_alive := false } else o

/-! ## Leap detector (src/monitor.py, class EvolutionaryLeapDetector) -/

/-- `statistics.mean` on a list of rationals. -/
def meanQ (xs : List ℚ) : ℚ := xs.sum / xs.length

/-- The population variance computed inside `statistics.pstdev`: mean squared
deviation from the mean. -/
def pvarianceQ (xs : List ℚ) : ℚ :=
  ((xs.map fun x => (x - meanQ xs)^2).sum) / xs.length

/-- One append to a `collections.deque` with `maxlen = window`: the value is
appended on the right and the oldest entries are dropped from the left while
the length exceeds the capacity. -/
def pushRing (window : ℕ) (ring : List ℚ) (v : ℚ) : List ℚ :=
  let r := ring ++ [v]
  if window < r.length then r.drop (r.length - window) else r

/-- The attributes `EvolutionaryLeapDetector.__init__` sets
(monitor.py lines 100-106): thresholds, the cohesion ring and the best
cohesion seen so far.  `_coh_ring` is kept as a list, oldest first. -/
structure LeapDetector where
  window : ℕ
  z_min : ℚ
  delta_min : ℚ
  acc_floor : ℚ
  coh_ring : List ℚ
  best_coh : Option ℚ
  deriving Repr, DecidableEq

/-- `EvolutionaryLeapDetector()` with the default parameters
window=20, z_min=2.0, delta_min=0.08, acc_floor=0.0. -/
def mkLeapDetector : LeapDetector :=
  { window := 20, z_min := 2, delta_min := 8/100, acc_floor := 0,
    coh_ring := [], best_coh := none }

/-- One entry of the `reason_bits` list built at monitor.py lines 144-147,
with the numeric payloads that the source interpolates into the string. -/
inductive ReasonBit
  | zPassed (z z_min : ℚ)
  | bestDelta (cohesion mu best : ℚ)
  | lowAccuracyIgnored
  deriving Repr, DecidableEq

/-- The `leap_info` record built at monitor.py lines 149-158. -/
structure LeapInfo where
  generation : ℕ
  event_type : String
  cohesion : ℚ
  accuracy : Option ℚ
  baseline_mean : ℚ
  baseline_std : ℚ
  z_score : ℚ
  reason : List ReasonBit
  deriving Repr, DecidableEq

/-- What happened at the leap-log append attempt (monitor.py lines 161-165):
either a record was appended to the file at a path, or the attempt raised
and the exception was caught and printed. -/
inductive LogWrite
  | appended (path : String) (record : LeapInfo)
  | failed (msg : String)
  deriving Repr, DecidableEq

/-- The full outcome of one `update_and_check` call: the updated detector
state, the returned value, and what the log-append attempt did (`none` when
the append code was never reached). -/
structure UpdateResult where
  detector : LeapDetector
  leap : Option LeapInfo
  log_write : Option LogWrite
  deriving Repr, DecidableEq

/-- The attribute read `self.log_path` performed at monitor.py line 162 with
`self` the detector.  `EvolutionaryLeapDetector.__init__` (lines 100-106)
sets only `window`, `z_min`, `delta_min`, `acc_floor`, `_coh_ring` and
`_best_coh`; `log_path` is set on the separate `Monitor` object (line 15),
never on the detector, so the read finds no attribute. -/
def detector_log_path (_ : LeapDetector) : Option String := none

/-- `EvolutionaryLeapDetector.update_and_check` (monitor.py lines 108-167).
An undefined cohesion records nothing and returns no leap.  Otherwise the
ring contents are captured, the new value is pushed, and with fewer than
max(5, window/2) captured samples only the best-so-far is updated.  In the
warm state the z-score against the captured baseline and the
best-plus-delta margin decide the leap; on a leap the record is built and
an append to the leap log is attempted inside try/except. -/
def update_and_check (sqrtQ : ℚ → ℚ) (d : LeapDetector) (gen : ℕ)
    (cohesion_mean accuracy : Option ℚ) : UpdateResult :=
  match cohesion_mean with
  | none => { detector := d, leap := none, log_write := none }
  | some coh =>
    let recent := d.coh_ring
    let d := { d with coh_ring := pushRing d.window d.coh_ring coh }
    if recent.length < max 5 (d.window / 2) then
      let d := { d with best_coh := match d.best_coh with
                  | none => some coh
                  | some b => some (max b coh) }
      { detector := d, leap := none, log_write := none }
    else
      let mu := meanQ recent
      let sigma := sqrtQ (pvarianceQ recent)
      let z := (coh - mu) / (sigma + 1/1000000)
      let improved_vs_best : Bool := match d.best_coh with
        | none => true
        | some b => decide (coh ≥ b + d.delta_min)
      let z_pass : Bool := decide (z ≥ d.z_min)
      let acc_pass : Bool := match accuracy with
        | none => true
        | some a => decide (a ≥ d.acc_floor)
      let is_leap := acc_pass && (z_pass || improved_vs_best)
      let d := { d with best_coh := match d.best_coh with
                  | none => some coh
                  | some b => if coh > b then some coh else some b }
      if is_leap then
        let bits := (if z_pass then [ReasonBit.zPassed z d.z_min] else []) ++
          (if improved_vs_best then [ReasonBit.bestDelta coh mu (d.best_coh.getD 0)] else []) ++
          (if acc_pass then [] else [ReasonBit.lowAccuracyIgnored])
        let info : LeapInfo :=
          { generation := gen, event_type := "evolutionary_leap", cohesion := coh,
            accuracy := accuracy, baseline_mean := mu, baseline_std := sigma,
            z_score := z, reason := bits }
        let lw := match detector_log_path d with
          | some p => LogWrite.appended p info
          | none => LogWrite.failed "AttributeError: log_path"
        { detector := d, leap := some info, log_write := some lw }
      else { detector := d, leap := none, log_write := none }

/-- The warm branch of `update_and_check` (monitor.py lines 125-167),
factored out verbatim so that theorems can rewrite a warm call to it. -/
def warmUpdate (sqrtQ : ℚ → ℚ) (d : LeapDetector) (gen : ℕ)
    (coh : ℚ) (accuracy : Option ℚ) : UpdateResult :=
  let recent := d.coh_ring
  let d := { d with coh_ring := pushRing d.window d.coh_ring coh }
  let mu := meanQ recent
  let sigma := sqrtQ (pvarianceQ recent)
  let z := (coh - mu) / (sigma + 1/1000000)
  let improved_vs_best : Bool := match d.best_coh with
    | none => true
    | some b => decide (coh ≥ b + d.delta_min)
  let z_pass : Bool := decide (z ≥ d.z_min)
  let acc_pass : Bool := match accuracy with
    | none => true
    | some a => decide (a ≥ d.acc_floor)
  let is_leap := acc_pass && (z_pass || improved_vs_best)
  let d := { d with best_coh := match d.best_coh with
              | none => some coh
              | some b => if coh > b then some coh else some b }
  if is_leap then
    let bits := (if z_pass then [ReasonBit.zPassed z d.z_min] else []) ++
      (if improved_vs_best then [ReasonBit.bestDelta coh mu (d.best_coh.getD 0)] else []) ++
      (if acc_pass then [] else [ReasonBit.lowAccuracyIgnored])
    let info : LeapInfo :=
      { generation := gen, event_type := "evolutionary_leap", cohesion := coh,
        accuracy := accuracy, baseline_mean := mu, baseline_std := sigma,
        z_score := z, reason := bits }
    let lw := match detector_log_path d with
      | some p => LogWrite.appended p info
      | none => LogWrite.failed "AttributeError: log_path"
    { detector := d, leap := some info, log_write := some lw }
  else { detector := d, leap := none, log_write := none }

/-! ## Monitor (src/monitor.py, classes Monitor and EvolutionCSVLogger) -/

/-- One element of `Monitor._interactions` (monitor.py lines 29-35). -/
structure Interaction where
  problem_type : String
  resource_type : String
  correct : Bool
  abs_error : ℚ
  cohesion : ℚ
  deriving Repr, DecidableEq

/-- `Monitor._scale_for` (monitor.py lines 20-22). -/
def scale_for (problem_type : String) : ℚ :=
  if problem_type = "math_problem" ∨ problem_type = "logic_problem" then 20 else 1

/-- `Monitor.record_interaction` (monitor.py lines 24-35) acting on the
interaction buffer. -/
def record_interaction (buf : List Interaction) (problem_type resource_type : String)
    (correct_answer proposed_solution : ℚ) (is_correct : Bool) : List Interaction :=
  let scale := scale_for problem_type
  let abs_error := |proposed_solution - correct_answer|
  let cohesion := max 0 (1 - abs_error / scale)
  buf ++ [{ problem_type := problem_type, resource_type := resource_type,
            correct := is_correct, abs_error := abs_error, cohesion := cohesion }]

/-- `Monitor.reset_generation` (monitor.py lines 17-18): empties the
interaction buffer.  It is called from `Monitor.__init__` only; nothing in
the generation loop invokes it. -/
def reset_generation (_ : List Interaction) : List Interaction := []

/-- The dictionary `Monitor.generation_metrics` returns
(monitor.py lines 37-55): undefined cohesion fields are `none`. -/
structure GenMetrics where
  n_interactions : ℕ
  accuracy : ℚ
  mean_abs_error : Option ℚ
  cohesion_mean : Option ℚ
  cohesion_median : Option ℚ
  deriving Repr, DecidableEq

/-- Ascending stable sort on rationals, as performed inside
`statistics.median`. -/
def sortQ (xs : List ℚ) : List ℚ := List.insertionSort (fun a b => a ≤ b) xs

/-- `statistics.median`: middle element of the sorted data for odd length,
average of the two middle elements for even length (callers only use it on
non-empty data). -/
def medianQ (xs : List ℚ) : ℚ :=
  let s := sortQ xs
  let n := s.length
  if n % 2 = 1 then s.getD (n / 2) 0
  else (s.getD (n / 2 - 1) 0 + s.getD (n / 2) 0) / 2

/-- `Monitor.generation_metrics` (monitor.py lines 37-55): zeros and `none`
on an empty buffer, otherwise accuracy, mean absolute error and cohesion
mean/median over the buffer. -/
def generation_metrics (buf : List Interaction) : GenMetrics :=
  if buf.isEmpty then
    { n_interactions := 0, accuracy := 0, mean_abs_error := none,
      cohesion_mean := none, cohesion_median := none }
  else
    { n_interactions := buf.length,
      accuracy := meanQ (buf.map fun it => if it.correct then 1 else 0),
      mean_abs_error := some (meanQ (buf.map (·.abs_error))),
      cohesion_mean := some (meanQ (buf.map (·.cohesion))),
      cohesion_median := some (medianQ (buf.map (·.cohesion))) }

/-- One row of the generation-summary CSV written by
`EvolutionCSVLogger.append` (monitor.py lines 63-93); `none` is the value
coerced to an empty CSV field. -/
structure CsvRow where
  generation : ℕ
  average_age : ℚ
  average_discrepancy : ℚ
  survivor_count : ℕ
  cohesion_mean : Option ℚ
  cohesion_median : Option ℚ
  oracle_accuracy : ℚ
  oracle_interactions : ℕ
  leap_flag : ℕ
  z_score : Option ℚ
  deriving Repr, DecidableEq

/-- One element of `history["generation_data"]`
(environment.py lines 67-76). -/
structure GenRecord where
  generation : ℕ
  average_age : ℚ
  average_discrepancy : ℚ
  survivor_count : ℕ
  cohesion_mean : Option ℚ
  cohesion_median : Option ℚ
  oracle_accuracy : ℚ
  oracle_interactions : ℕ
  deriving Repr, DecidableEq

/-! ## Oracle (src/oracle.py) -/

/-- The random draws one `HumanInterfaceOracle.present_problem` call
consumes: the uniform choice between the two problem types and the two
`randint(1, 10)` operands (modelled as arbitrary naturals reduced into
the range). -/
structure OracleDraw where
  pick_math : Bool
  r1 : ℕ
  r2 : ℕ

/-- `HumanInterfaceOracle.get_reward_amount` with the `reward_amounts`
table of oracle.py lines 15-18: 35.0 for compute_load, 30.0 for
signal_integrity, 0.0 otherwise. -/
def get_reward_amount (resource_type : String) : ℚ :=
  if resource_type = "compute_load" then 35
  else if resource_type = "signal_integrity" then 30
  else 0

/-- `HumanInterfaceOracle.present_problem` (oracle.py lines 20-44): returns
(problem_type, problem_data, resource_type, correct_answer); a math problem
is a + b rewarding compute_load, a logic problem is 2a - b rewarding
signal_integrity, with a, b drawn from [1, 10]. -/
def present_problem (d : OracleDraw) : String × List ℚ × String × ℚ :=
  let num1 : ℚ := ((1 + d.r1 % 10 : ℕ) : ℚ)
  let num2 : ℚ := ((1 + d.r2 % 10 : ℕ) : ℚ)
  if d.pick_math then ("math_problem", [num1, num2], "compute_load", num1 + num2)
  else ("logic_problem", [num1, num2], "signal_integrity", num1 * 2 - num2)

/-! ## Environment state (src/environment.py) -/

/-- The state `Environment.__init__` (environment.py lines 12-18) sets up,
together with the monitor-owned state it aggregates and the contents of the
two persistent logs: `monitor_interactions` is `Monitor._interactions`,
`detector` is `Monitor.leap`, `csv_rows` is the generation-summary CSV and
`leap_log` the leap-event log file. -/
structure Env where
  population_size : ℕ
  genome_size : ℕ
  organisms : List Organism
  monitor_interactions : List Interaction
  detector : LeapDetector
  history : List GenRecord
  csv_rows : List CsvRow
  leap_log : List LeapInfo

/-- `Environment.initialize_population` (environment.py lines 20-22) with
the genome draws injected: `population_size` fresh organisms, each with a
genome of `genome_size` drawn weights. -/
def init_population (fresh : ℕ → ℕ → ℚ) (env : Env) : Env :=
  { env with organisms := (List.range env.population_size).map fun i =>
      mkOrganism ((List.range env.genome_size).map (fresh i)) }

/-- `living + dead`, the concatenation `all_organisms` built at
environment.py lines 26-29. -/
def all_organisms_of (env : Env) : List Organism :=
  env.organisms.filter (fun o => o.is_alive) ++ env.organisms.filter (fun o => !o.is_alive)

/-- Average age over a list of organisms (environment.py line 34). -/
def avg_age_of (l : List Organism) : ℚ := (l.map fun o => (o.age : ℚ)).sum / l.length

/-- Average cumulative discrepancy over a list of organisms
(environment.py line 35). -/
def avg_disc_of (l : List Organism) : ℚ := (l.map (·.cumulative_discrepancy)).sum / l.length

/-- The record appended to `history["generation_data"]` for one generation
(environment.py lines 67-76). -/
def generation_record (gen : ℕ) (env : Env) : GenRecord :=
  let mon := generation_metrics env.monitor_interactions
  { generation := gen, average_age := avg_age_of (all_organisms_of env),
    average_discrepancy := avg_disc_of (all_organisms_of env),
    survivor_count := (env.organisms.filter (fun o => o.is_alive)).length,
    cohesion_mean := mon.cohesion_mean, cohesion_median := mon.cohesion_median,
    oracle_accuracy := mon.accuracy, oracle_interactions := mon.n_interactions }

/-- `Environment.log_generation_data` (environment.py lines 24-88).
`csv_write_fails` says whether the file append inside
`EvolutionCSVLogger.append` (monitor.py lines 86-93) raises an I/O error;
that method has no try/except, so a failure propagates out of
`log_generation_data` (modelled as `Except.error` carrying the state at the
raise point) before the history append runs.  The leap-log append attempt
inside `update_and_check` is caught there and never escapes. -/
def log_generation_data (sqrtQ : ℚ → ℚ) (csv_write_fails : Bool) (gen : ℕ) (env : Env) :
    Except Env Env :=
  let all_organisms := all_organisms_of env
  if all_organisms.isEmpty then Except.ok env
  else
    let mon := generation_metrics env.monitor_interactions
    let hist_record := generation_record gen env
    let res := update_and_check sqrtQ env.detector gen mon.cohesion_mean (some mon.accuracy)
    let env := { env with
      detector := res.detector,
      leap_log := match res.log_write with
        | some (LogWrite.appended _ r) => env.leap_log ++ [r]
        | _ => env.leap_log }
    let row : CsvRow :=
      { generation := gen, average_age := avg_age_of all_organisms,
        average_discrepancy := avg_disc_of all_organisms,
        survivor_count := (env.organisms.filter (fun o => o.is_alive)).length,
        cohesion_mean := mon.cohesion_mean, cohesion_median := mon.cohesion_median,
        oracle_accuracy := mon.accuracy, oracle_interactions := mon.n_interactions,
        leap_flag := if res.leap.isSome then 1 else 0,
        z_score := res.leap.map (·.z_score) }
    if csv_write_fails then Except.error env
    else
      let env := { env with csv_rows := env.csv_rows ++ [row] }
      Except.ok { env with history := env.history ++ [hist_record] }

/-- `Environment.crossover_and_mutate` (environment.py lines 90-106) with
the random draws injected: `cp_draw` yields the `randint(1, genome_size-1)`
crossover point as `1 + cp_draw % (genome_size - 1)`, `mutp i` is the
per-gene `random.random() < 0.1` mutation decision and `noise i` the
`random.gauss(0, 0.5)` magnitude. -/
def crossover_and_mutate (genome_size : ℕ) (cp_draw : ℕ) (mutp : ℕ → Bool) (noise : ℕ → ℚ)
    (genome1 genome2 : List ℚ) : List ℚ :=
  let new_genome :=
    if 1 < genome_size then
      let crossover_point := 1 + cp_draw % (genome_size - 1)
      genome1.take crossover_point ++ genome2.drop crossover_point
    else genome1
  new_genome.mapIdx fun i g => if mutp i then g + noise i else g

/-! ## Evolutionary loop (src/evolutionary_loop.py) -/

/-- The random draws one organism consumes in one cycle of
`run_generation_cycle`: whether `random.random() < 0.25` fires an Oracle
interaction, and the Oracle's own draws. -/
structure CycleRng where
  interact : Bool
  draw : OracleDraw

/-- The body of the inner loop of `EvolutionaryLoop.run_generation_cycle`
(evolutionary_loop.py lines 37-59) for one organism: the liveness check,
then `process_cycle`, then (with probability 0.25) one Oracle interaction
judged by the 0.1 absolute tolerance, rewarding on success and penalizing
via `trigger_error` on failure. -/
def cycle_step (r : CycleRng) (o : Organism) : Organism :=
  if o.is_alive then
    let o := process_cycle o
    if r.interact then
      let p := present_problem r.draw
      let problem_type := p.1
      let p_data := p.2.1
      let r_type := p.2.2.1
      let correct_ans := p.2.2.2
      let proposed := solve_problem o p_data
      let is_correct : Bool :=
        if problem_type = "math_problem" ∨ problem_type = "logic_problem" then
          decide (|proposed - correct_ans| < 1/10)
        else false
      if is_correct then gain_resource o r_type (get_reward_amount r_type)
      else trigger_error o
    else o
  else o

/-- `EvolutionaryLoop.run_generation_cycle` (evolutionary_loop.py
lines 34-59).  The source iterates cycles outermost and organisms
innermost; since organisms never read or write each other's state and the
Oracle is stateless, each organism's final state is the fold of its own
per-cycle steps, with `crng cycle index` the randomness the source would
hand that organism in that cycle. -/
def run_generation_cycle (crng : ℕ → ℕ → CycleRng) (cycles : ℕ) (env : Env) : Env :=
  { env with organisms :=
      env.organisms.mapIdx fun i o =>
        (List.range cycles).foldl (fun o c => cycle_step (crng c i) o) o }

/-- Sort key of `evolve_population`: descending age (the
`sort(key=age, reverse=True)` order of evolutionary_loop.py lines 72
and 78). -/
def ageGE (a b : Organism) : Prop := b.age ≤ a.age

instance : DecidableRel ageGE := fun a b => Nat.decLe b.age a.age

instance : IsTotal Organism ageGE := ⟨fun a b => Nat.le_total b.age a.age⟩

instance : IsTrans Organism ageGE := ⟨fun _ _ _ h1 h2 => Nat.le_trans h2 h1⟩

/-- Python's stable descending-age sort, modelled by the stable insertion
sort under `ageGE`. -/
def sortAgeDesc (l : List Organism) : List Organism := List.insertionSort ageGE l

/-- `max(2, int(population_size * 0.2))` (evolutionary_loop.py lines 73
and 79); `int(n * 0.2)` equals floor(n/5) for every population size the
doubles represent exactly. -/
def num_parents (population_size : ℕ) : ℕ := max 2 (population_size / 5)

/-- The parent-selection part of `EvolutionaryLoop.evolve_population`
(evolutionary_loop.py lines 66-80): the living organisms sorted by
descending age when any survive, otherwise the whole (dead) population
sorted by descending age, truncated to `num_parents`. -/
def parents_of (env : Env) : List Organism :=
  let survivors := env.organisms.filter (fun o => o.is_alive)
  if !survivors.isEmpty then
    (sortAgeDesc survivors).take (num_parents env.population_size)
  else
    (sortAgeDesc env.organisms).take (num_parents env.population_size)

/-- The random draws `evolve_population` consumes, indexed by the while-loop
iteration: the two `random.choice(parents)` picks, the crossover-point draw
and the per-gene mutation decisions and noise, plus the genome draws used
when a fresh population must be created. -/
structure EvoRng where
  fresh : ℕ → ℕ → ℚ
  pick1 : ℕ → ℕ
  pick2 : ℕ → ℕ
  cp : ℕ → ℕ
  mutp : ℕ → ℕ → Bool
  noise : ℕ → ℕ → ℚ

/-- The child built in iteration `k` of the while loop of
`evolve_population` (evolutionary_loop.py lines 98-105): two parents chosen
uniformly with replacement, a crossover-and-mutate genome, a fresh organism
carrying it. -/
def mkChild (gsize : ℕ) (rng : EvoRng) (parents : List Organism) (k : ℕ) : Organism :=
  let parent1 := parents.getD (rng.pick1 k % parents.length) (mkOrganism [])
  let parent2 := parents.getD (rng.pick2 k % parents.length) (mkOrganism [])
  mkOrganism (crossover_and_mutate gsize (rng.cp k) (rng.mutp k) (rng.noise k)
    parent1.genome parent2.genome)

/-- The while loop `while len(next_generation) < population_size: append a
child` (evolutionary_loop.py lines 98-105), with a fuel argument; each
iteration appends exactly one child, so any fuel of at least
`population_size` makes this the exact loop semantics. -/
def fillChildren (child : ℕ → Organism) (pop : ℕ) : ℕ → List Organism → List Organism
  | 0, acc => acc
  | fuel+1, acc =>
    if acc.length < pop then fillChildren child pop fuel (acc ++ [child acc.length])
    else acc

/-- `EvolutionaryLoop.evolve_population` (evolutionary_loop.py
lines 61-107): parent selection, the population-reset fallback when no
parents exist, elitism for the top half of the parents (genome copied into
a fresh organism), and the child-filling while loop run to the target
population size. -/
def evolve_population (rng : EvoRng) (env : Env) : Env :=
  let parents := parents_of env
  if parents.isEmpty then init_population rng.fresh env
  else
    let elites_to_keep := parents.length / 2
    let elites := (parents.take elites_to_keep).map fun p => mkOrganism p.genome
    let next_generation :=
      fillChildren (mkChild env.genome_size rng parents) env.population_size
        env.population_size elites
    { env with organisms := next_generation }

/-- One iteration of the generation loop of
`EvolutionaryLoop.run_simulation` (evolutionary_loop.py lines 20-30):
simulate the lifetime, log the generation (a propagating log failure aborts
the run), evolve the population. -/
def run_generation (sqrtQ : ℚ → ℚ) (crng : ℕ → ℕ → CycleRng) (rng : EvoRng)
    (csv_write_fails : Bool) (cycles gen : ℕ) (env : Env) : Except Env Env :=
  match log_generation_data sqrtQ csv_write_fails gen (run_generation_cycle crng cycles env) with
  | Except.error e => Except.error e
  | Except.ok env => Except.ok (evolve_population rng env)

/-- The program state when a run stops, whether it finished or aborted on an
uncaught exception. -/
def resultEnv : Except Env Env → Env
  | Except.ok e => e
  | Except.error e => e

/-- The generation loop `for gen in range(generations)` of `run_simulation`,
short-circuiting on an uncaught exception. -/
def run_gens (step : ℕ → Env → Except Env Env) : ℕ → ℕ → Env → Except Env Env
  | 0, _, env => Except.ok env
  | Nat.succ n, g, env =>
    match step g env with
    | Except.error e => Except.error e
    | Except.ok env2 => run_gens step n (g+1) env2

/-- `EvolutionaryLoop.run_simulation` (evolutionary_loop.py lines 15-32):
population creation followed by the generation loop, where generation `g`
(0-based) is logged as `g + 1`. -/
def run_simulation (sqrtQ : ℚ → ℚ) (crng : ℕ → ℕ → ℕ → CycleRng) (rng : ℕ → EvoRng)
    (csv_write_fails : ℕ → Bool) (fresh : ℕ → ℕ → ℚ) (generations cycles : ℕ)
    (env : Env) : Except Env Env :=
  run_gens
    (fun g e => run_generation sqrtQ (crng g) (rng g) (csv_write_fails g) cycles (g+1) e)
    generations 0 (init_population fresh env)

/-- Whether a run finished normally (`Except.ok`) rather than aborting on an
uncaught exception. -/
def isOkB : Except Env Env → Bool
  | Except.ok _ => true
  | Except.error _ => false

/-! ## Concrete states used by witnesses and counterexamples -/

/-- A square-root stand-in that is only ever applied to 0 in the concrete
evaluations below. -/
def zeroSqrt : ℚ → ℚ := fun _ => 0

/-- A detector that has warmed up: window 10, five identical baseline
samples, best cohesion 1/2. -/
def dWarm : LeapDetector :=
  { mkLeapDetector with
    window := 10, coh_ring := [1/2, 1/2, 1/2, 1/2, 1/2], best_coh := some (1/2) }

/-- A fresh organism with the given liveness and age (genome empty). -/
def orgAged (alive : Bool) (age : ℕ) : Organism :=
  { mkOrganism [] with is_alive := alive, age := age }

/-- A one-organism environment whose only organism is dead, with empty
monitor buffer, fresh detector and empty history and logs. -/
def env0 : Env :=
  { population_size := 1, genome_size := 2, organisms := [orgAged false 0],
    monitor_interactions := [], detector := mkLeapDetector,
    history := [], csv_rows := [], leap_log := [] }

/-- A five-organism environment: three living organisms of ages 3, 1, 2 and
two dead ones of ages 9 and 0. -/
def envSel : Env :=
  { env0 with
    population_size := 5,
    organisms := [orgAged true 3, orgAged false 9, orgAged true 1,
                  orgAged true 2, orgAged false 0] }

/-- An environment with population size 0 and no organisms. -/
def envEmpty : Env :=
  { env0 with population_size := 0, organisms := [] }

/-- A fully extinct ten-organism environment (population size 10). -/
def envExt : Env :=
  { env0 with
    population_size := 10, organisms := List.replicate 10 (orgAged false 0) }

/-- A degenerate reproduction randomness source: always index 0, no
mutation, zero noise. -/
def rng0 : EvoRng :=
  { fresh := fun _ _ => 0, pick1 := fun _ => 0, pick2 := fun _ => 0,
    cp := fun _ => 0, mutp := fun _ _ => false, noise := fun _ _ => 0 }

/-- An organism past the hard death ceiling (accumulator 5000) that is still
marked alive. -/
def o10 : Organism := { mkOrganism [] with cumulative_discrepancy := 5000 }

/-- Cycle randomness that fires the Oracle interaction with a math problem
whose operands are both 1. -/
def rC10 : CycleRng :=
  { interact := true, draw := { pick_math := true, r1 := 0, r2 := 0 } }

/-! # Theorems -/

/-! ## Claim C4 -/

/-- C4: `process_cycle` behaves exactly as claimed: a dead organism is left
unchanged; an organism whose accumulator already exceeds 4500 is killed with
no further change; otherwise age increments, each variable moves by
direction * rate (amplified by 1.25 when the old value lies outside its
band), the squared out-of-band error of the updated variables is added to
the accumulator, and the organism dies when the result exceeds 2500. -/
theorem process_cycle_as_claimed (o : Organism) :
    process_cycle o = processCycleClaimed o := by
  obtain ⟨vars, genome, alive, cum, age⟩ := o
  unfold process_cycle processCycleClaimed
  by_cases ha : alive = false
  · by_cases hc : cum > 4500 <;> simp [ha, hc]
  · by_cases hc : cum > 4500 <;> simp [ha, hc]

/-! ## Claim C8: the cold state returns no leap and only records -/

/-- C8: while the ring held fewer than max(5, window/2) samples before the
call, `update_and_check` returns no leap and attempts no log write,
whatever the generation, cohesion and accuracy arguments are; its only
effects are pushing a defined cohesion into the ring and
initializing-or-maxing the best-so-far cohesion. -/
theorem update_and_check_cold (sqrtQ : ℚ → ℚ) (d : LeapDetector) (gen : ℕ)
    (cohesion_mean accuracy : Option ℚ)
    (h : d.coh_ring.length < max 5 (d.window / 2)) :
    update_and_check sqrtQ d gen cohesion_mean accuracy =
      { detector :=
          { d with
            coh_ring := match cohesion_mean with
              | none => d.coh_ring
              | some c => pushRing d.window d.coh_ring c
            best_coh := match cohesion_mean with
              | none => d.best_coh
              | some c => some (match d.best_coh with
                  | none => c
                  | some b => max b c) },
        leap := none, log_write := none } := by
  cases cohesion_mean with
  | none => simp [update_and_check]
  | some c =>
    simp only [update_and_check, h, if_true]
    cases hb : d.best_coh <;> rfl

/-- Witness for C8: a concrete cold call (fresh default detector, empty
ring) returns no leap and just records the sample as ring content and best
value. -/
theorem update_and_check_cold_witness :
    mkLeapDetector.coh_ring.length < max 5 (mkLeapDetector.window / 2) ∧
    update_and_check (fun q => q) mkLeapDetector 1 (some 1) (some 0) =
      { detector := { mkLeapDetector with coh_ring := [1], best_coh := some 1 },
        leap := none, log_write := none } :=
  ⟨by decide,
   (update_and_check_cold (fun q => q) mkLeapDetector 1 (some 1) (some 0)
      (by decide)).trans (by rfl)⟩

/-! ## Warm-path helper -/

/-- A warm call (at least max(5, window/2) samples already in the ring) is
the factored-out warm branch. -/
theorem update_and_check_warm_eq (sqrtQ : ℚ → ℚ) (d : LeapDetector) (gen : ℕ)
    (c : ℚ) (accuracy : Option ℚ)
    (h : ¬ d.coh_ring.length < max 5 (d.window / 2)) :
    update_and_check sqrtQ d gen (some c) accuracy = warmUpdate sqrtQ d gen c accuracy := by
  simp only [update_and_check, warmUpdate, h, if_false]

/-! ## Claim C5: the warm-path leap decision -/

/-- C5: on a warm call with defined cohesion `c`, a leap is reported exactly
when (accuracy is undefined or at least the accuracy floor) and (the
z-score of `c` against the pre-insertion window contents reaches `z_min`,
or no best-so-far exists, or `c` beats the best-so-far by at least
`delta_min`). -/
theorem update_and_check_warm_leap_iff (sqrtQ : ℚ → ℚ) (d : LeapDetector) (gen : ℕ)
    (c : ℚ) (accuracy : Option ℚ)
    (h : max 5 (d.window / 2) ≤ d.coh_ring.length) :
    (update_and_check sqrtQ d gen (some c) accuracy).leap.isSome = true ↔
      ((accuracy = none ∨ ∃ a, accuracy = some a ∧ d.acc_floor ≤ a) ∧
       (d.z_min ≤ (c - meanQ d.coh_ring) / (sqrtQ (pvarianceQ d.coh_ring) + 1/1000000)
        ∨ d.best_coh = none
        ∨ ∃ b, d.best_coh = some b ∧ b + d.delta_min ≤ c)) := by
  rw [update_and_check_warm_eq sqrtQ d gen c accuracy (not_lt.mpr h)]
  unfold warmUpdate
  rcases accuracy with _ | a <;> rcases hb : d.best_coh with _ | b <;>
    simp only [hb] <;> split <;>
    simp_all [Bool.and_eq_true, Bool.or_eq_true, decide_eq_true_eq, ge_iff_le]

/-- Witness for C5: with a warmed-up detector holding five baseline samples
of 1/2 and best 1/2, a call with cohesion 9/10 and accuracy 1 reports a
leap (it clears the best-plus-delta margin 1/2 + 0.08 and the accuracy
floor 0). -/
theorem update_and_check_warm_leap_iff_witness :
    (update_and_check zeroSqrt dWarm 6 (some (9/10)) (some 1)).leap.isSome = true := by
  refine (update_and_check_warm_leap_iff zeroSqrt dWarm 6 (9/10) (some 1) (by decide)).mpr ?_
  constructor
  · exact Or.inr ⟨1, rfl, by norm_num [dWarm, mkLeapDetector]⟩
  · exact Or.inr (Or.inr ⟨1/2, rfl, by norm_num [dWarm, mkLeapDetector]⟩)

/-! ## Claim C2: the leap-log append -/

/-- C2: no call to `update_and_check` ever appends to the leap-event log:
either the log write is never reached, or the attempt fails (the detector
object has no `log_path` attribute) and is swallowed by the except clause.
Concretely, a warm call that does report a leap still returns the record
while its log write fails. -/
theorem leap_log_append_always_fails :
    (∀ (sqrtQ : ℚ → ℚ) (d : LeapDetector) (gen : ℕ) (coh acc : Option ℚ),
      (update_and_check sqrtQ d gen coh acc).log_write = none ∨
      (update_and_check sqrtQ d gen coh acc).log_write =
        some (LogWrite.failed "AttributeError: log_path")) ∧
    ((update_and_check zeroSqrt dWarm 6 (some (9/10)) (some 1)).leap.isSome = true ∧
     (update_and_check zeroSqrt dWarm 6 (some (9/10)) (some 1)).log_write =
       some (LogWrite.failed "AttributeError: log_path")) := by
  constructor
  · intro sqrtQ d gen coh acc
    cases coh with
    | none => left; rfl
    | some c =>
      by_cases h : d.coh_ring.length < max 5 (d.window / 2)
      · left
        simp only [update_and_check, h, if_true]
      · rw [update_and_check_warm_eq sqrtQ d gen c acc h]
        simp only [warmUpdate, detector_log_path]
        repeat' split
        all_goals first
          | (left; rfl)
          | (right; rfl)
  · rw [update_and_check_warm_eq zeroSqrt dWarm 6 (9/10) (some 1) (by decide)]
    have hi : decide ((9/10:ℚ) ≥ 1/2 + 8/100) = true :=
      decide_eq_true (by norm_num)
    have ha : decide ((1:ℚ) ≥ 0) = true := decide_eq_true (by norm_num)
    simp only [warmUpdate, dWarm, mkLeapDetector, detector_log_path, hi, ha,
      Bool.or_true, Bool.true_and, if_true, Option.isSome_some]
    exact ⟨trivial, trivial⟩

/-! ## Claim C3: log-write failure handling -/

/-- A population that contains at least one organism yields a non-empty
`living + dead` concatenation. -/
theorem all_organisms_of_ne_nil (env : Env) (h : env.organisms ≠ []) :
    all_organisms_of env ≠ [] := by
  unfold all_organisms_of
  rcases he : env.organisms with _ | ⟨o, tl⟩
  · exact absurd he h
  · by_cases ha : o.is_alive <;> simp [List.filter_cons, ha]

/-- C3 counterexample: on a one-organism environment, when the CSV append
raises, `log_generation_data` lets the exception propagate (the run aborts)
and the generation's record is never appended to the in-memory history,
which stays empty. -/
theorem csv_failure_aborts_without_history :
    log_generation_data zeroSqrt true 1 env0 = Except.error env0 ∧
    env0.history = [] := by
  exact ⟨rfl, rfl⟩

/-- C3 amended: when the CSV append succeeds, `log_generation_data` returns
normally and appends exactly the generation record to the history (leap-log
write failures inside `update_and_check` are caught there and cannot abort
it); but when the CSV append raises, the exception propagates uncaught and
the history is left unchanged. -/
theorem log_write_failure_handling (sqrtQ : ℚ → ℚ) (gen : ℕ) (env : Env)
    (h : env.organisms ≠ []) :
    isOkB (log_generation_data sqrtQ false gen env) = true ∧
    (resultEnv (log_generation_data sqrtQ false gen env)).history =
      env.history ++ [generation_record gen env] ∧
    isOkB (log_generation_data sqrtQ true gen env) = false ∧
    (resultEnv (log_generation_data sqrtQ true gen env)).history = env.history := by
  have hne : all_organisms_of env ≠ [] := all_organisms_of_ne_nil env h
  have hie : (all_organisms_of env).isEmpty = false := by
    simpa [List.isEmpty_iff] using hne
  refine ⟨?_, ?_, ?_, ?_⟩ <;>
    simp [log_generation_data, hie, resultEnv, isOkB, generation_record]

/-- Witness for C3 amended: on the concrete one-dead-organism environment,
a successful CSV write appends the generation record and a failing one
leaves the history empty. -/
theorem log_write_failure_handling_witness :
    isOkB (log_generation_data zeroSqrt false 1 env0) = true ∧
    (resultEnv (log_generation_data zeroSqrt false 1 env0)).history =
      env0.history ++ [generation_record 1 env0] ∧
    isOkB (log_generation_data zeroSqrt true 1 env0) = false ∧
    (resultEnv (log_generation_data zeroSqrt true 1 env0)).history = env0.history :=
  log_write_failure_handling zeroSqrt 1 env0 (by simp [env0])

/-! ## Claim C1: the interaction buffer across generations -/

/-- `log_generation_data` never touches the monitor's interaction buffer,
whether it returns or raises. -/
theorem monitor_of_log (sqrtQ : ℚ → ℚ) (b : Bool) (gen : ℕ) (env : Env) :
    (resultEnv (log_generation_data sqrtQ b gen env)).monitor_interactions =
      env.monitor_interactions := by
  unfold log_generation_data
  by_cases hie : (all_organisms_of env).isEmpty
  · simp [hie, resultEnv]
  · by_cases hb : b <;> simp [hie, hb, resultEnv]

/-- `evolve_population` never touches the monitor's interaction buffer. -/
theorem monitor_of_evolve (rng : EvoRng) (env : Env) :
    (evolve_population rng env).monitor_interactions = env.monitor_interactions := by
  simp only [evolve_population, init_population]
  split <;> rfl

/-- One full generation (cycles, logging, evolution) never touches the
monitor's interaction buffer. -/
theorem monitor_of_run_generation (sqrtQ : ℚ → ℚ) (crng : ℕ → ℕ → CycleRng)
    (rng : EvoRng) (b : Bool) (cycles gen : ℕ) (env : Env) :
    (resultEnv (run_generation sqrtQ crng rng b cycles gen env)).monitor_interactions =
      env.monitor_interactions := by
  unfold run_generation
  have hl := monitor_of_log sqrtQ b gen (run_generation_cycle crng cycles env)
  cases he : log_generation_data sqrtQ b gen (run_generation_cycle crng cycles env) with
  | error e =>
    rw [he] at hl
    exact hl
  | ok e =>
    rw [he] at hl
    simpa [resultEnv, monitor_of_evolve] using hl

/-- The generation loop preserves any step-invariant of the monitor
buffer. -/
theorem run_gens_monitor (step : ℕ → Env → Except Env Env)
    (hstep : ∀ g e, (resultEnv (step g e)).monitor_interactions = e.monitor_interactions) :
    ∀ (n g : ℕ) (env : Env),
      (resultEnv (run_gens step n g env)).monitor_interactions =
        env.monitor_interactions := by
  intro n
  induction n with
  | zero => intro g env; rfl
  | succ m ih =>
    intro g env
    unfold run_gens
    have hs := hstep g env
    cases he : step g env with
    | error e => rw [he] at hs; exact hs
    | ok e =>
      rw [he] at hs
      rw [ih (g+1) e]
      exact hs

/-- C1 (refuting the claimed reset): a complete `run_simulation` never
modifies the monitor's interaction buffer — no generation boundary clears
it (`reset_generation` is called from `Monitor.__init__` only), and no
cycle records into it, so the buffer every generation's metrics are
computed over is the same unreset list throughout the run. -/
theorem monitor_buffer_never_cleared (sqrtQ : ℚ → ℚ) (crng : ℕ → ℕ → ℕ → CycleRng)
    (rng : ℕ → EvoRng) (csvf : ℕ → Bool) (fresh : ℕ → ℕ → ℚ)
    (generations cycles : ℕ) (env : Env) :
    (resultEnv (run_simulation sqrtQ crng rng csvf fresh generations cycles
        env)).monitor_interactions = env.monitor_interactions := by
  unfold run_simulation
  rw [run_gens_monitor _
    (fun g e => monitor_of_run_generation sqrtQ (crng g) (rng g) (csvf g) cycles (g+1) e)]
  rfl

/-! ## Claim C6: parent selection -/

/-- The top-k slice of the descending-age sort of any organism list is
sorted, has length min(k, |l|), and age-dominates the rest of the list. -/
theorem take_sorted_spec (l : List Organism) (k : ℕ) :
    ((sortAgeDesc l).take k).Sorted ageGE ∧
    ((sortAgeDesc l).take k).length = min k l.length ∧
    l.Perm ((sortAgeDesc l).take k ++ (sortAgeDesc l).drop k) ∧
    (∀ p ∈ (sortAgeDesc l).take k, ∀ r ∈ (sortAgeDesc l).drop k, r.age ≤ p.age) := by
  have hs : (sortAgeDesc l).Sorted ageGE := List.sorted_insertionSort ageGE l
  have hp : (sortAgeDesc l).Perm l := List.perm_insertionSort ageGE l
  refine ⟨List.Pairwise.sublist (List.take_sublist _ _) hs, ?_, ?_, ?_⟩
  · rw [List.length_take, hp.length_eq]
  · rw [List.take_append_drop]
    exact hp.symm
  · have hs' := hs
    rw [← List.take_append_drop k (sortAgeDesc l)] at hs'
    have h2 := List.pairwise_append.mp hs'
    intro p hp' r hr'
    exact h2.2.2 p hp' r hr'

/-- C6: at a generation's end, if survivors exist the parents are the
max(2, popSize/5) oldest living organisms in descending-age order (every
parent is alive, the parents age-dominate the remaining survivors); on
total extinction the parents are instead the same count of oldest organisms
of the whole dead population; and with an empty population
`evolve_population` falls back to re-initializing a fresh random population
and returns immediately. -/
theorem parent_selection_spec (env : Env) (rng : EvoRng) :
    ((env.organisms.filter fun o => o.is_alive) ≠ [] →
      (∀ p ∈ parents_of env, p.is_alive = true) ∧
      (parents_of env).Sorted ageGE ∧
      (parents_of env).length =
        min (num_parents env.population_size)
          (env.organisms.filter fun o => o.is_alive).length ∧
      ∃ rest, (env.organisms.filter fun o => o.is_alive).Perm (parents_of env ++ rest) ∧
        ∀ p ∈ parents_of env, ∀ r ∈ rest, r.age ≤ p.age) ∧
    ((env.organisms.filter fun o => o.is_alive) = [] →
      (parents_of env).Sorted ageGE ∧
      (parents_of env).length = min (num_parents env.population_size) env.organisms.length ∧
      ∃ rest, env.organisms.Perm (parents_of env ++ rest) ∧
        ∀ p ∈ parents_of env, ∀ r ∈ rest, r.age ≤ p.age) ∧
    (env.organisms = [] → evolve_population rng env = init_population rng.fresh env) := by
  refine ⟨?_, ?_, ?_⟩
  · intro hsv
    have hne : ¬ (env.organisms.filter fun o => o.is_alive).isEmpty = true := by
      simpa [List.isEmpty_iff] using hsv
    have hpar : parents_of env =
        (sortAgeDesc (env.organisms.filter fun o => o.is_alive)).take
          (num_parents env.population_size) := by
      simp only [parents_of]
      rw [if_pos (by simpa using hne)]
    obtain ⟨h1, h2, h3, h4⟩ :=
      take_sorted_spec (env.organisms.filter fun o => o.is_alive)
        (num_parents env.population_size)
    refine ⟨?_, hpar ▸ h1, hpar ▸ h2, ?_⟩
    · intro p hp
      rw [hpar] at hp
      have := List.mem_of_mem_take hp
      have hmem := (List.perm_insertionSort ageGE _).mem_iff.mp this
      exact (List.mem_filter.mp hmem).2
    · refine ⟨(sortAgeDesc (env.organisms.filter fun o => o.is_alive)).drop
        (num_parents env.population_size), ?_, ?_⟩
      · rw [hpar]; exact h3
      · rw [hpar]; exact h4
  · intro hsv
    have hpar : parents_of env =
        (sortAgeDesc env.organisms).take (num_parents env.population_size) := by
      simp only [parents_of]
      rw [hsv]
      rfl
    obtain ⟨h1, h2, h3, h4⟩ := take_sorted_spec env.organisms (num_parents env.population_size)
    exact ⟨hpar ▸ h1, hpar ▸ h2,
      ⟨(sortAgeDesc env.organisms).drop (num_parents env.population_size),
        by rw [hpar]; exact h3, by rw [hpar]; exact h4⟩⟩
  · intro ho
    have hpe : (parents_of env).isEmpty = true := by
      simp [parents_of, ho, sortAgeDesc, List.insertionSort]
    simp only [evolve_population]
    rw [if_pos hpe]

/-- Witness for C6: on the concrete five-organism population with three
survivors the selection facts hold, and on the empty population
`evolve_population` re-initializes. -/
theorem parent_selection_spec_witness :
    ((∀ p ∈ parents_of envSel, p.is_alive = true) ∧
      (parents_of envSel).Sorted ageGE ∧
      (parents_of envSel).length =
        min (num_parents envSel.population_size)
          (envSel.organisms.filter fun o => o.is_alive).length ∧
      ∃ rest, (envSel.organisms.filter fun o => o.is_alive).Perm
          (parents_of envSel ++ rest) ∧
        ∀ p ∈ parents_of envSel, ∀ r ∈ rest, r.age ≤ p.age) ∧
    (evolve_population rng0 envEmpty = init_population rng0.fresh envEmpty) :=
  ⟨(parent_selection_spec envSel rng0).1 (by decide),
   (parent_selection_spec envEmpty rng0).2.2 (by rfl)⟩

/-! ## Claim C7: the population size invariant -/

/-- The child-filling loop with fuel at least the missing count reaches
exactly max(target, initial) elements. -/
theorem fillChildren_length (child : ℕ → Organism) (pop : ℕ) :
    ∀ (fuel : ℕ) (acc : List Organism), pop ≤ acc.length + fuel →
      (fillChildren child pop fuel acc).length = max pop acc.length := by
  intro fuel
  induction fuel with
  | zero =>
    intro acc h
    simp only [fillChildren]
    omega
  | succ m ih =>
    intro acc h
    unfold fillChildren
    by_cases hl : acc.length < pop
    · rw [if_pos hl, ih (acc ++ [child acc.length]) (by simp; omega)]
      simp
      omega
    · rw [if_neg hl]
      omega

/-- Sorting by descending age preserves length. -/
theorem length_sortAgeDesc (l : List Organism) : (sortAgeDesc l).length = l.length :=
  (List.perm_insertionSort ageGE l).length_eq

/-- The selected parents never outnumber the population. -/
theorem parents_of_length_le (env : Env) :
    (parents_of env).length ≤ env.organisms.length := by
  simp only [parents_of]
  split
  · rw [List.length_take, length_sortAgeDesc]
    exact le_trans (min_le_right _ _) (List.length_filter_le _ _)
  · rw [List.length_take, length_sortAgeDesc]
    exact min_le_right _ _

/-- A non-empty population always yields at least one parent. -/
theorem parents_of_ne_nil (env : Env) (h : env.organisms ≠ []) :
    parents_of env ≠ [] := by
  have hlp : 0 < (parents_of env).length := by
    simp only [parents_of]
    split
    · rename_i hc
      rw [List.length_take, length_sortAgeDesc]
      have hfne : (env.organisms.filter fun o => o.is_alive) ≠ [] := by
        simpa [List.isEmpty_iff] using hc
      have : 0 < (env.organisms.filter fun o => o.is_alive).length :=
        List.length_pos.mpr hfne
      have hk : 0 < num_parents env.population_size := by
        simp [num_parents]
      omega
    · rw [List.length_take, length_sortAgeDesc]
      have : 0 < env.organisms.length := List.length_pos.mpr h
      have hk : 0 < num_parents env.population_size := by
        simp [num_parents]
      omega
  exact List.length_pos.mp hlp

/-- C7: starting from any reachable state (exactly `population_size`
organisms, population size positive — total extinction included),
`init_population` creates and `evolve_population` re-establishes exactly
`population_size` organisms: the elites plus the crossover children fill
the next generation to the target size exactly. -/
theorem population_size_preserved (rng : EvoRng) (fresh : ℕ → ℕ → ℚ) (env : Env)
    (hpop : 0 < env.population_size)
    (hlen : env.organisms.length = env.population_size) :
    (init_population fresh env).organisms.length = env.population_size ∧
    (evolve_population rng env).organisms.length = env.population_size := by
  constructor
  · simp [init_population]
  · have horg : env.organisms ≠ [] := by
      intro hnil
      rw [hnil] at hlen
      simp at hlen
      omega
    have hpne : (parents_of env).isEmpty = false := by
      have := parents_of_ne_nil env horg
      simpa [List.isEmpty_iff] using this
    have hple : (parents_of env).length ≤ env.population_size :=
      hlen ▸ parents_of_length_le env
    simp only [evolve_population, hpne, Bool.false_eq_true, if_false]
    rw [fillChildren_length _ _ _ _ (Nat.le_add_left _ _)]
    have hel : ((parents_of env).take ((parents_of env).length / 2)).length ≤
        env.population_size := by
      rw [List.length_take]
      omega
    rw [List.length_map]
    omega

/-- Witness for C7: evolving the fully extinct ten-organism population
rebuilds exactly ten organisms, and re-initialization creates ten. -/
theorem population_size_preserved_witness :
    (evolve_population rng0 envExt).organisms.length = 10 ∧
    (init_population rng0.fresh envExt).organisms.length = 10 := by
  have h := population_size_preserved rng0 rng0.fresh envExt (by decide) (by decide)
  exact ⟨h.2, h.1⟩

/-! ## Claim C9: crossover-and-mutate -/

/-- Reading an in-range position of a `mapIdx` image applies the function to
the corresponding source entry. -/
theorem getD_mapIdx (f : ℕ → ℚ → ℚ) (l : List ℚ) (i : ℕ) (h : i < l.length) :
    (l.mapIdx f).getD i 0 = f i (l.getD i 0) := by
  rw [List.getD_eq_getElem _ _ (by simpa using h), List.getD_eq_getElem _ _ h,
    List.getElem_mapIdx]

/-- C9: on parent genomes of the configured length, crossover-and-mutate
returns a genome of exactly that length; for length > 1 there is a
crossover point in [1, length-1] with parent1's genes (plus the optional
per-gene noise) strictly before it and parent2's genes (plus noise) from it
on; for length at most 1 every gene is parent1's gene plus the optional
noise. -/
theorem crossover_and_mutate_spec (genome_size cp_draw : ℕ) (mutp : ℕ → Bool)
    (noise : ℕ → ℚ) (genome1 genome2 : List ℚ)
    (h1 : genome1.length = genome_size) (h2 : genome2.length = genome_size) :
    (crossover_and_mutate genome_size cp_draw mutp noise genome1 genome2).length
      = genome_size ∧
    (1 < genome_size → ∃ pt, 1 ≤ pt ∧ pt ≤ genome_size - 1 ∧
      ∀ i < genome_size,
        (crossover_and_mutate genome_size cp_draw mutp noise genome1 genome2).getD i 0 =
          (if i < pt then genome1.getD i 0 else genome2.getD i 0) +
            (if mutp i then noise i else 0)) ∧
    (genome_size ≤ 1 →
      ∀ i < genome_size,
        (crossover_and_mutate genome_size cp_draw mutp noise genome1 genome2).getD i 0 =
          genome1.getD i 0 + (if mutp i then noise i else 0)) := by
  by_cases hgs : 1 < genome_size
  · have hmod : cp_draw % (genome_size - 1) < genome_size - 1 :=
      Nat.mod_lt _ (by omega)
    set pt := 1 + cp_draw % (genome_size - 1) with hptdef
    have hpt1 : 1 ≤ pt := by omega
    have hpt2 : pt ≤ genome_size - 1 := by omega
    have hptle : pt ≤ genome1.length := by omega
    have hcc : crossover_and_mutate genome_size cp_draw mutp noise genome1 genome2 =
        (genome1.take pt ++ genome2.drop pt).mapIdx
          fun i g => if mutp i then g + noise i else g := by
      simp only [crossover_and_mutate, hgs, if_true, hptdef]
    have hclen : (genome1.take pt ++ genome2.drop pt).length = genome_size := by
      rw [List.length_append, List.length_take, List.length_drop, h1, h2]
      omega
    refine ⟨?_, fun _ => ⟨pt, hpt1, hpt2, ?_⟩, fun hle => absurd hgs (by omega)⟩
    · rw [hcc, List.length_mapIdx, hclen]
    · intro i hi
      rw [hcc, getD_mapIdx _ _ _ (by omega)]
      have hbase : (genome1.take pt ++ genome2.drop pt).getD i 0 =
          if i < pt then genome1.getD i 0 else genome2.getD i 0 := by
        by_cases hip : i < pt
        · rw [if_pos hip,
            List.getD_eq_getElem _ _ (by omega),
            List.getD_eq_getElem _ _ (by omega : i < genome1.length),
            List.getElem_append_left (by simp [List.length_take]; omega),
            List.getElem_take]
        · rw [if_neg hip,
            List.getD_eq_getElem _ _ (by omega),
            List.getD_eq_getElem _ _ (by omega : i < genome2.length),
            List.getElem_append_right (by simp [List.length_take]; omega),
            List.getElem_drop]
          congr 1
          simp [List.length_take]
          omega
      rw [hbase]
      by_cases hm : mutp i <;> simp [hm]
  · have hcc : crossover_and_mutate genome_size cp_draw mutp noise genome1 genome2 =
        genome1.mapIdx fun i g => if mutp i then g + noise i else g := by
      simp only [crossover_and_mutate, hgs, if_false]
    refine ⟨?_, fun hlt => absurd hlt hgs, fun _ i hi => ?_⟩
    · rw [hcc, List.length_mapIdx, h1]
    · rw [hcc, getD_mapIdx _ _ _ (by omega)]
      by_cases hm : mutp i <;> simp [hm]

/-- Witness for C9: with genome size 2, parents [1, 2] and [3, 4], no
mutation and the crossover draw 0, the child has length 2 and the crossover
point exists in [1, 1]. -/
theorem crossover_and_mutate_spec_witness :
    (crossover_and_mutate 2 0 (fun _ => false) (fun _ => 0) [1, 2] [3, 4]).length = 2 ∧
    (∃ pt, 1 ≤ pt ∧ pt ≤ 1 ∧
      ∀ i < 2,
        (crossover_and_mutate 2 0 (fun _ => false) (fun _ => 0) [1, 2] [3, 4]).getD i 0 =
          (if i < pt then ([1, 2] : List ℚ).getD i 0 else ([3, 4] : List ℚ).getD i 0) +
            (if (fun _ => false) i then (fun _ => (0:ℚ)) i else 0)) :=
  ⟨(crossover_and_mutate_spec 2 0 (fun _ => false) (fun _ => 0) [1, 2] [3, 4] rfl rfl).1,
   (crossover_and_mutate_spec 2 0 (fun _ => false) (fun _ => 0) [1, 2] [3, 4]
      rfl rfl).2.1 (by omega)⟩

/-! ## Claim C10: the liveness guard runs only before process_cycle -/

/-- C10: in a cycle, the liveness check happens only before `process_cycle`:
an alive organism that dies inside `process_cycle` still attempts the
Oracle interaction fired in the same cycle, and when the answer is judged
incorrect, `trigger_error` runs on the already-dead organism, adding 50 to
its cumulative discrepancy. -/
theorem interaction_runs_on_dead_organism (r : CycleRng) (o : Organism)
    (halive : o.is_alive = true)
    (hdead : (process_cycle o).is_alive = false)
    (hint : r.interact = true)
    (hwrong : ¬ |solve_problem (process_cycle o) (present_problem r.draw).2.1 -
        (present_problem r.draw).2.2.2| < 1/10) :
    cycle_step r o = trigger_error (process_cycle o) ∧
    (cycle_step r o).is_alive = false ∧
    (cycle_step r o).cumulative_discrepancy =
      (process_cycle o).cumulative_discrepancy + 50 := by
  have htype : (present_problem r.draw).1 = "math_problem" ∨
      (present_problem r.draw).1 = "logic_problem" := by
    by_cases hp : r.draw.pick_math <;> simp [present_problem, hp]
  have hstep : cycle_step r o = trigger_error (process_cycle o) := by
    simp only [cycle_step, halive, hint, if_true]
    rw [if_pos htype, decide_eq_false hwrong]
    simp
  refine ⟨hstep, ?_, ?_⟩
  · rw [hstep]
    simpa [trigger_error] using hdead
  · rw [hstep]
    simp [trigger_error]

/-- Witness for C10: the alive organism with accumulator 5000 dies inside
`process_cycle` (5000 > 4500), yet the fired math interaction (operands
1 and 1, proposed solution 0) is judged incorrect and `trigger_error` still
runs: the dead organism ends the cycle with accumulator 5050. -/
theorem interaction_runs_on_dead_organism_witness :
    (cycle_step rC10 o10).is_alive = false ∧
    (cycle_step rC10 o10).cumulative_discrepancy = 5050 := by
  have hdead : (process_cycle o10).is_alive = false := by decide
  have hwrong : ¬ |solve_problem (process_cycle o10) (present_problem rC10.draw).2.1 -
      (present_problem rC10.draw).2.2.2| < 1/10 := by
    norm_num [present_problem, solve_problem, process_cycle, o10, mkOrganism, rC10]
  have h := interaction_runs_on_dead_organism rC10 o10 (by rfl) hdead (by rfl) hwrong
  refine ⟨h.2.1, ?_⟩
  rw [h.2.2]
  have hc : (process_cycle o10).cumulative_discrepancy = 5000 := by rfl
  rw [hc]
  norm_num

end EvoJumps
